import Mathlib

/-!
Shallow embedding of `src/scripts/moviepy_pipeline.py` (function `render_video`)
and the thin CLI wrapper `src/scripts/render_video.py`.

Times and durations are modelled as exact rationals (`ℚ`); the Python `float`
special values `nan`/`inf`/`-inf` that the code tests with `math.isfinite`
are modelled by the inductive `PyFloat`.  Fallible operations (opening the
audio file, decoding an image, building the subtitle overlay) are modelled as
`Except`-valued inputs, since their bodies are third-party library calls the
repository merely invokes.
-/

namespace VideoBackend

/-- `TRANSITION = 0.6` (moviepy_pipeline.py line 32). -/
def TRANSITION : ℚ := 6/10

/-- `EPSILON = 0.10` (moviepy_pipeline.py line 33). -/
def EPSILON : ℚ := 10/100

/-- `TARGET_W = 720` (line 29). -/
def TARGET_W : ℤ := 720

/-- `TARGET_H = 1280` (line 29). -/
def TARGET_H : ℤ := 1280

/-- `CONTENT_SCALE = 0.86` (line 43). -/
def CONTENT_SCALE : ℚ := 86/100

/-- `BORDER_PX = 16` (line 44). -/
def BORDER_PX : ℤ := 16

/-- `inner_w = int(TARGET_W * CONTENT_SCALE) - 2 * BORDER_PX` (line 166);
Python `int()` truncates, which on this positive value is the floor. -/
def inner_w : ℤ := ⌊(TARGET_W : ℚ) * CONTENT_SCALE⌋ - 2 * BORDER_PX

/-- `inner_h = int(TARGET_H * CONTENT_SCALE) - 2 * BORDER_PX` (line 167). -/
def inner_h : ℤ := ⌊(TARGET_H : ℚ) * CONTENT_SCALE⌋ - 2 * BORDER_PX

/-- A Python float value: finite (exact rational) or one of the non-finite
values that `math.isfinite` rejects. -/
inductive PyFloat where
  | fin (q : ℚ)
  | nan
  | inf
  | ninf
deriving DecidableEq, Repr

/-- `math.isfinite` (line 182). -/
def PyFloat.isfinite : PyFloat → Bool
  | .fin _ => true
  | _ => false

/-- Outcome of `AudioFileClip(audio_path)` followed by reading `.duration`
(lines 174-179): either the constructor raises, or it yields an object whose
`duration` attribute is a float or `None`. -/
inductive AudioRead where
  | fail
  | ok (dur : Option PyFloat)
deriving DecidableEq, Repr

/-- State after the timing-planner block (lines 172-202). -/
structure PlanState where
  audioPresent : Bool
  audio_duration : ℚ
  mode : String
  per_slide : ℚ
  durations : List ℚ
  total_duration : ℚ
deriving DecidableEq, Repr

/-- Whether `audio` is non-`None` after the `try` of lines 174-179
(`audio = AudioFileClip(audio_path)`, with `except: audio = None`). -/
def audioOpened : AudioRead → Bool
  | .fail => false
  | .ok _ => true

/-- `audio_duration` after lines 176-183:
`audio_duration = float(audio.duration or 0.0)` (with the `except` fallback to
`0.0`) followed by `if not math.isfinite(audio_duration): audio_duration = 0.0`. -/
def effDuration : AudioRead → ℚ
  | .fail => 0
  | .ok d =>
    match d.getD (.fin 0) with
    | .fin q => q
    | _ => 0

/-- Lines 185-189: the uniform per-slide duration computed from the effective
audio duration `A` and the image count `n`. -/
def perSlideOf (A : ℚ) (n : ℕ) : ℚ :=
  if A > 1/100 then
    max (A / (n : ℚ) + EPSILON) (TRANSITION + 2/10)
  else
    max (5/2) (TRANSITION + 2/10)

/-- Lines 172-202 of `render_video`: open the audio (or fall back to `None`
with duration `0.0`), zero out a non-finite duration, compute the uniform
per-slide duration (`durations = [per_slide] * n`,
`total_duration = sum(durations)`), and when the duration is unusable
(`audio_duration <= 0.01`) switch `MODE` to `"pad_audio"`, replace the audio
duration by the slideshow total, and drop (close) the audio object.
`n` is the number of collected images. -/
def planTiming (read : AudioRead) (n : ℕ) : PlanState :=
  if effDuration read ≤ 1/100 then
    { audioPresent := false,
      audio_duration := (List.replicate n (perSlideOf (effDuration read) n)).sum,
      mode := "pad_audio",
      per_slide := perSlideOf (effDuration read) n,
      durations := List.replicate n (perSlideOf (effDuration read) n),
      total_duration := (List.replicate n (perSlideOf (effDuration read) n)).sum }
  else
    { audioPresent := audioOpened read,
      audio_duration := effDuration read,
      mode := "trim_to_audio",
      per_slide := perSlideOf (effDuration read) n,
      durations := List.replicate n (perSlideOf (effDuration read) n),
      total_duration := (List.replicate n (perSlideOf (effDuration read) n)).sum }

/-- The composed clip handed to `write_videofile` (duration, whether an audio
track is attached, and whether the `pad_audio` silence clip was appended). -/
structure FinalClip where
  duration : ℚ
  hasAudio : Bool
  silenceAppended : Bool
deriving DecidableEq, Repr

/-- Lines 224-239 of `render_video` (audio binding).  `slideshowDuration` is
the natural duration of the concatenated slideshow; every branch overrides it
with an explicit `with_duration`, hence it does not influence the result. -/
def bindAudio (st : PlanState) (slideshowDuration : ℚ) : Except String FinalClip :=
  if st.audioPresent then
    if st.mode = "trim_to_audio" then
      .ok { duration := st.audio_duration, hasAudio := true, silenceAppended := false }
    else if st.mode = "pad_audio" then
      if st.total_duration > st.audio_duration then
        .ok { duration := st.total_duration, hasAudio := true, silenceAppended := true }
      else
        .ok { duration := st.audio_duration, hasAudio := true, silenceAppended := false }
    else
      .error "MODE invalid"
  else
    .ok { duration := st.total_duration, hasAudio := false, silenceAppended := false }

/-- Total duration assigned by
`concatenate_videoclips(slides, method="compose", padding=-TRANSITION)`
(line 219): the library computes
`timings = maximum(0, cumsum([0] + durations) + padding * arange(n + 1))`
and sets the result duration to `timings[-1] - padding`, whose last entry is
`max(0, sum(durations) + padding * n) - padding`. -/
def concatDuration (durations : List ℚ) (padding : ℚ) : ℚ :=
  max 0 (durations.sum + padding * (durations.length : ℚ)) - padding

/-- `os.path.basename`: everything after the last `/`. -/
def basename (p : String) : String := (p.splitOn "/").getLastD p

/-- The sort key of line 156: `os.path.basename(p).lower()`. -/
def imageKey (p : String) : String := (basename p).toLower

/-- Comparison used by the sort of lines 154-157: keys compared with Python
string order (code-point lexicographic, as Lean's `String` order is). -/
def imageLe (a b : String) : Bool := imageKey a ≤ imageKey b

/-- Lines 154-157: `sorted(glob(...), key=lambda p: os.path.basename(p).lower())`.
Python `sorted` is a stable sort; `List.mergeSort` is stable. -/
def sortImages (listing : List String) : List String :=
  listing.mergeSort imageLe

/-- Lines 149-161: sort the glob listing, raise `FileNotFoundError` when it is
empty, and truncate to `MAX_IMAGES` entries when longer.  `listing` stands for
the result of `glob(os.path.join(images_dir, "*.*"))`. -/
def collectImages (listing : List String) (maxImages : ℕ) : Except String (List String) :=
  let images := sortImages listing
  if images.isEmpty then
    .error "rasm topilmadi"
  else if images.length > maxImages then
    .ok (images.take maxImages)
  else
    .ok images

/-- `MAX_IMAGES = int(os.getenv("MAX_IMAGES", "10"))` (line 149), with the
environment value already parsed as a natural number when present. -/
def maxImagesFromEnv (env : Option ℕ) : ℕ := env.getD 10

/-- Lines 56-79, `downscale_images`.  `pil` is whether `from PIL import ...`
succeeds; `proc idx src` is the per-image body (decode, EXIF transpose,
thumbnail, RGB convert, JPEG save) which yields the scratch path `dst` or
raises.  On a per-image failure the original path is appended instead. -/
def downscale_images (pil : Bool) (proc : ℕ → String → Except String String)
    (image_paths : List String) (max_w max_h : ℤ) : List String :=
  if !pil then
    image_paths
  else if max_w ≤ 0 ∨ max_h ≤ 0 then
    image_paths
  else
    image_paths.enum.map fun p =>
      match proc p.1 p.2 with
      | .ok dst => dst
      | .error _ => p.2

/-- Inputs of the caption stage (lines 244-262): the `captions_path` argument,
whether that file exists, the `SKIP_CAPTIONS` environment variable, and the
outcome of the guarded body (`SubtitlesClip` parse, probe render, compositing),
which is third-party work that may raise. -/
structure CaptionEnv where
  captionsPath : Option String
  fileExists : Bool
  skipEnv : Option String
  build : Except String Unit
deriving Repr

/-- Python truthiness of the `captions_path` argument (`None` and `""` are
falsy). -/
def captionTruthy : Option String → Bool
  | none => false
  | some s => !(s == "")

/-- The guard of line 244:
`captions_path and os.path.exists(captions_path) and os.getenv("SKIP_CAPTIONS") != "1"`. -/
def captionAttempted (e : CaptionEnv) : Bool :=
  captionTruthy e.captionsPath && e.fileExists && !(e.skipEnv == some "1")

/-- Lines 244-262: when the guard holds, run the body under
`try ... except Exception: pass`; the overlay is applied exactly when the body
succeeds.  Returns whether the caption overlay ended up composited onto the
final clip. -/
def captionStage (e : CaptionEnv) : Bool :=
  if captionAttempted e then
    match e.build with
    | .ok _ => true
    | .error _ => false
  else
    false

/-- Observable outcome of one `render_video` call: the image paths used, the
planner outputs, the slideshow and final durations, the `audio=` flag passed
to `write_videofile` (line 274), whether pad-audio silence was generated, and
whether the caption overlay was composited. -/
structure RenderOutput where
  images : List String
  per_slide : ℚ
  mode : String
  slideshowDuration : ℚ
  finalDuration : ℚ
  hasAudio : Bool
  silenceAppended : Bool
  captionsApplied : Bool
deriving DecidableEq, Repr

/-- Environment of one `render_video` call: the glob listing of the images
directory, the parsed `MAX_IMAGES` variable, whether the audio file exists,
PIL availability and the per-image normalization outcomes, the audio-open
outcome, and the caption-stage inputs. -/
structure RenderInput where
  listing : List String
  maxImagesEnv : Option ℕ
  audioExists : Bool
  pil : Bool
  imgProc : ℕ → String → Except String String
  audioRead : AudioRead
  captionsPath : Option String
  captionsFileExists : Bool
  skipCaptionsEnv : Option String
  captionBuild : Except String Unit

/-- The whole of `render_video` (lines 18-277), stage by stage in source
order: collect and cap the images, check the audio path exists (line 163),
downscale into the scratch directory, plan the timing, concatenate with
`padding=-TRANSITION`, bind the audio, and run the caption stage.  Encoding
itself (line 269) only consumes `final` and the audio flag. -/
def render_video (i : RenderInput) : Except String RenderOutput :=
  match collectImages i.listing (maxImagesFromEnv i.maxImagesEnv) with
  | .error e => .error e
  | .ok images0 =>
    if !i.audioExists then
      .error "Audio topilmadi"
    else
      match
        bindAudio
          (planTiming i.audioRead
            (downscale_images i.pil i.imgProc images0 inner_w inner_h).length)
          (concatDuration
            (planTiming i.audioRead
              (downscale_images i.pil i.imgProc images0 inner_w inner_h).length).durations
            (-TRANSITION))
      with
      | .error e => .error e
      | .ok f =>
        .ok { images := downscale_images i.pil i.imgProc images0 inner_w inner_h,
              per_slide :=
                (planTiming i.audioRead
                  (downscale_images i.pil i.imgProc images0 inner_w inner_h).length).per_slide,
              mode :=
                (planTiming i.audioRead
                  (downscale_images i.pil i.imgProc images0 inner_w inner_h).length).mode,
              slideshowDuration :=
                concatDuration
                  (planTiming i.audioRead
                    (downscale_images i.pil i.imgProc images0 inner_w inner_h).length).durations
                  (-TRANSITION),
              finalDuration := f.duration,
              hasAudio := f.hasAudio,
              silenceAppended := f.silenceAppended,
              captionsApplied := captionStage
                { captionsPath := i.captionsPath, fileExists := i.captionsFileExists,
                  skipEnv := i.skipCaptionsEnv, build := i.captionBuild } }

/-- The audio metadata situations the spec calls "unusable": the open raised
(file unreadable), the duration attribute is missing, the duration is zero,
or it is non-finite. -/
def unusableAudio : AudioRead → Bool
  | .fail => true
  | .ok none => true
  | .ok (some (.fin q)) => if q = 0 then true else false
  | .ok (some _) => true

/-! ## Helper lemmas -/

/-- The slide-duration list is uniform: `durations = [per_slide] * n`. -/
theorem planTiming_durations (r : AudioRead) (n : ℕ) :
    (planTiming r n).durations = List.replicate n ((planTiming r n).per_slide) := by
  unfold planTiming
  split <;> rfl

/-- The planner's per-slide field is `perSlideOf`. -/
theorem planTiming_per_slide (r : AudioRead) (n : ℕ) :
    (planTiming r n).per_slide = perSlideOf (effDuration r) n := by
  unfold planTiming
  split <;> rfl

/-- `total_duration = sum(durations) = n * per_slide`. -/
theorem planTiming_total (r : AudioRead) (n : ℕ) :
    (planTiming r n).total_duration = (n : ℚ) * (planTiming r n).per_slide := by
  unfold planTiming
  split <;> simp [List.sum_replicate, nsmul_eq_mul]

/-- Both planner branches bound the per-slide duration below by
`TRANSITION + 0.2`. -/
theorem planTiming_per_slide_ge (r : AudioRead) (n : ℕ) :
    TRANSITION + 2/10 ≤ (planTiming r n).per_slide := by
  rw [planTiming_per_slide]
  unfold perSlideOf
  split <;> exact le_max_right _ _

/-- Whenever the planner keeps the audio object, the mode is still the
initial `"trim_to_audio"`. -/
theorem planTiming_audio_imp_trim (r : AudioRead) (n : ℕ)
    (h : (planTiming r n).audioPresent = true) :
    (planTiming r n).mode = "trim_to_audio" := by
  unfold planTiming at h ⊢
  split at h
  · exact absurd h (by simp)
  · rw [if_neg (by assumption)]

/-- The audio binder never raises on a planner-produced state, and never
takes the silence-generation branch. -/
theorem bindAudio_planTiming_ok (r : AudioRead) (n : ℕ) (s : ℚ) :
    ∃ f, bindAudio (planTiming r n) s = .ok f ∧ f.silenceAppended = false := by
  cases hb : (planTiming r n).audioPresent
  case false =>
    refine ⟨{ duration := (planTiming r n).total_duration, hasAudio := false,
              silenceAppended := false }, ?_, rfl⟩
    simp [bindAudio, hb]
  case true =>
    have hm := planTiming_audio_imp_trim r n hb
    refine ⟨{ duration := (planTiming r n).audio_duration, hasAudio := true,
              silenceAppended := false }, ?_, rfl⟩
    simp [bindAudio, hb, hm]

/-- A failing caption body is swallowed: no overlay is applied. -/
theorem captionStage_error (e : CaptionEnv) (msg : String) (h : e.build = .error msg) :
    captionStage e = false := by
  unfold captionStage
  split
  · rw [h]
  · rfl

/-- The caption stage is skipped when the path is falsy, the file is missing,
or `SKIP_CAPTIONS=1`. -/
theorem captionStage_skip (e : CaptionEnv)
    (h : e.captionsPath = none ∨ e.captionsPath = some "" ∨ e.fileExists = false
      ∨ e.skipEnv = some "1") :
    captionStage e = false := by
  have ha : captionAttempted e = false := by
    rcases h with h | h | h | h <;> simp [captionAttempted, captionTruthy, h]
  simp [captionStage, ha]

/-- A nonempty listing makes the collector succeed with the first `m` entries
of the sorted list. -/
theorem collectImages_ok (listing : List String) (m : ℕ) (h : listing ≠ []) :
    collectImages listing m = .ok ((sortImages listing).take m) := by
  have hlen : (sortImages listing).length = listing.length := by
    simp [sortImages]
  have hne : (sortImages listing).isEmpty = false := by
    rw [List.isEmpty_eq_false]
    intro hc
    exact h (List.length_eq_zero.mp (by rw [← hlen, hc]; rfl))
  unfold collectImages
  simp only [hne, Bool.false_eq_true, if_false]
  split
  · rfl
  · rw [List.take_of_length_le (le_of_not_lt (by assumption))]

/-! ## Claims -/

/-- **C1.** With `n ≥ 1` collected images and a finite audio duration
`A > 0.01` s, the timing planner assigns every slide the same duration
`per_slide = max(A/n + 0.10, 0.6 + 0.2)` (`EPSILON = 0.10`,
`TRANSITION = 0.6`) and selects the `"trim_to_audio"` fit mode. -/
theorem c1_usable_audio_uniform_trim (n : ℕ) (A : ℚ) (hn : 1 ≤ n) (hA : A > 1/100) :
    (planTiming (.ok (some (.fin A))) n).durations
        = List.replicate n ((planTiming (.ok (some (.fin A))) n).per_slide)
      ∧ (planTiming (.ok (some (.fin A))) n).per_slide
          = max (A / (n : ℚ) + EPSILON) (TRANSITION + 2/10)
      ∧ EPSILON = 10/100 ∧ TRANSITION = 6/10
      ∧ (planTiming (.ok (some (.fin A))) n).mode = "trim_to_audio" := by
  have he : effDuration (.ok (some (.fin A))) = A := rfl
  have hmode : (planTiming (.ok (some (.fin A))) n).mode = "trim_to_audio" := by
    unfold planTiming
    rw [if_neg (by rw [he]; exact not_le.mpr hA)]
  refine ⟨planTiming_durations _ _, ?_, rfl, rfl, hmode⟩
  rw [planTiming_per_slide, he]
  unfold perSlideOf
  rw [if_pos hA]

/-- Witness for C1 at the spec scenario `n = 3`, `A = 9`. -/
theorem c1_usable_audio_uniform_trim_witness :
    ((1:ℕ) ≤ 3 ∧ (9:ℚ) > 1/100)
      ∧ (planTiming (.ok (some (.fin 9))) 3).mode = "trim_to_audio" :=
  ⟨⟨by norm_num, by norm_num⟩,
    (c1_usable_audio_uniform_trim 3 9 (by norm_num) (by norm_num)).2.2.2.2⟩

/-- **C2.** In trim-to-audio mode (finite audio duration `A > 0.01` s) the
final clip handed to the encoder has duration exactly `A`, whatever the
concatenated slideshow duration `s` is. -/
theorem c2_trim_final_duration_equals_audio (n : ℕ) (A s : ℚ)
    (hn : 1 ≤ n) (hA : A > 1/100) :
    bindAudio (planTiming (.ok (some (.fin A))) n) s
      = .ok { duration := A, hasAudio := true, silenceAppended := false } := by
  have he : effDuration (.ok (some (.fin A))) = A := rfl
  unfold planTiming
  rw [if_neg (by rw [he]; exact not_le.mpr hA)]
  simp [bindAudio, audioOpened, he]

/-- Witness for C2 at `n = 3`, `A = 9`, slideshow durations `8.1` and `100`
(shorter and longer than the audio). -/
theorem c2_trim_final_duration_equals_audio_witness :
    ((1:ℕ) ≤ 3 ∧ (9:ℚ) > 1/100)
      ∧ bindAudio (planTiming (.ok (some (.fin 9))) 3) (81/10)
          = .ok { duration := 9, hasAudio := true, silenceAppended := false }
      ∧ bindAudio (planTiming (.ok (some (.fin 9))) 3) 100
          = .ok { duration := 9, hasAudio := true, silenceAppended := false } :=
  ⟨⟨by norm_num, by norm_num⟩,
    c2_trim_final_duration_equals_audio 3 9 (81/10) (by norm_num) (by norm_num),
    c2_trim_final_duration_equals_audio 3 9 100 (by norm_num) (by norm_num)⟩

/-- **C3.** Concatenating `n ≥ 1` slides of duration `d` each with cross-fade
transition `TRANSITION = 0.6` (negative padding) yields a timeline of duration
`n*d - TRANSITION*(n-1)`; for `n = 1` the duration is `d`.  The hypothesis
`TRANSITION ≤ d` always holds for planner-produced slides
(`planTiming_per_slide_ge`). -/
theorem c3_crossfade_concat_duration (n : ℕ) (d : ℚ)
    (hn : 1 ≤ n) (hd : TRANSITION ≤ d) :
    concatDuration (List.replicate n d) (-TRANSITION)
        = (n : ℚ) * d - TRANSITION * ((n : ℚ) - 1)
      ∧ concatDuration [d] (-TRANSITION) = d := by
  have hgen : ∀ m : ℕ, concatDuration (List.replicate m d) (-TRANSITION)
      = (m : ℚ) * d - TRANSITION * ((m : ℚ) - 1) := by
    intro m
    have h0 : (0:ℚ) ≤ (m : ℚ) * d + (-TRANSITION) * (m : ℚ) := by
      have hnn : (0:ℚ) ≤ (m : ℚ) := Nat.cast_nonneg m
      nlinarith [mul_nonneg hnn (sub_nonneg.mpr hd)]
    unfold concatDuration
    rw [List.sum_replicate, nsmul_eq_mul, List.length_replicate, max_eq_right h0]
    ring
  refine ⟨hgen n, ?_⟩
  have h1 := hgen 1
  rw [List.replicate_one] at h1
  rw [h1]
  push_cast
  ring

/-- Witness for C3 at `n = 3`, `d = 2`. -/
theorem c3_crossfade_concat_duration_witness :
    ((1:ℕ) ≤ 3 ∧ TRANSITION ≤ (2:ℚ))
      ∧ concatDuration (List.replicate 3 (2:ℚ)) (-TRANSITION)
          = ((3:ℕ) : ℚ) * 2 - TRANSITION * (((3:ℕ) : ℚ) - 1)
      ∧ concatDuration [(2:ℚ)] (-TRANSITION) = 2 :=
  ⟨⟨by norm_num, by norm_num [TRANSITION]⟩,
    (c3_crossfade_concat_duration 3 2 (by norm_num) (by norm_num [TRANSITION])).1,
    (c3_crossfade_concat_duration 3 2 (by norm_num) (by norm_num [TRANSITION])).2⟩

/-- **C4.** With an unusable audio duration (open failed, `None`, zero, or
non-finite) the planner falls back to
`per_slide = max(2.5, TRANSITION + 0.2) = 2.5`, switches the mode to
`"pad_audio"`, and drops the audio object entirely. -/
theorem c4_unusable_audio_fallback (r : AudioRead) (n : ℕ) (hn : 1 ≤ n)
    (hu : unusableAudio r = true) :
    (planTiming r n).per_slide = max (5/2) (TRANSITION + 2/10)
      ∧ (planTiming r n).per_slide = 5/2
      ∧ (planTiming r n).mode = "pad_audio"
      ∧ (planTiming r n).audioPresent = false := by
  have he : effDuration r = 0 := by
    cases r with
    | fail => rfl
    | ok d =>
      cases d with
      | none => rfl
      | some f =>
        cases f with
        | fin q =>
          unfold unusableAudio at hu
          split at hu <;> simp_all [effDuration]
        | nan => rfl
        | inf => rfl
        | ninf => rfl
  have hps : (planTiming r n).per_slide = max (5/2) (TRANSITION + 2/10) := by
    rw [planTiming_per_slide, he]
    unfold perSlideOf
    rw [if_neg (by norm_num)]
  refine ⟨hps, ?_, ?_, ?_⟩
  · rw [hps, max_eq_left (by norm_num [TRANSITION])]
  · unfold planTiming
    rw [if_pos (by rw [he]; norm_num)]
  · unfold planTiming
    rw [if_pos (by rw [he]; norm_num)]

/-- Witness for C4: opened audio with a `NaN` duration, `n = 2`. -/
theorem c4_unusable_audio_fallback_witness :
    ((1:ℕ) ≤ 2 ∧ unusableAudio (.ok (some .nan)) = true)
      ∧ (planTiming (.ok (some .nan)) 2).per_slide = 5/2
      ∧ (planTiming (.ok (some .nan)) 2).mode = "pad_audio"
      ∧ (planTiming (.ok (some .nan)) 2).audioPresent = false :=
  ⟨⟨by norm_num, rfl⟩,
    (c4_unusable_audio_fallback (.ok (some .nan)) 2 (by norm_num) rfl).2.1,
    (c4_unusable_audio_fallback (.ok (some .nan)) 2 (by norm_num) rfl).2.2.1,
    (c4_unusable_audio_fallback (.ok (some .nan)) 2 (by norm_num) rfl).2.2.2⟩

/-- **C5.** When no audio object exists at the binding stage, the final clip
has audio disabled and its duration is `n * per_slide`, the sum of the `n`
slide durations. -/
theorem c5_no_audio_silent_natural (r : AudioRead) (n : ℕ) (s : ℚ) (hn : 1 ≤ n)
    (h : (planTiming r n).audioPresent = false) :
    bindAudio (planTiming r n) s
      = .ok { duration := (n : ℚ) * (planTiming r n).per_slide,
              hasAudio := false, silenceAppended := false } := by
  simp [bindAudio, h, planTiming_total r n]

/-- Witness for C5: unreadable audio file, `n = 2`, slideshow duration `4.4`. -/
theorem c5_no_audio_silent_natural_witness :
    ((1:ℕ) ≤ 2 ∧ (planTiming .fail 2).audioPresent = false)
      ∧ bindAudio (planTiming .fail 2) (44/10)
          = .ok { duration := ((2:ℕ) : ℚ) * (planTiming .fail 2).per_slide,
                  hasAudio := false, silenceAppended := false } :=
  ⟨⟨by norm_num, by norm_num [planTiming, effDuration]⟩,
    c5_no_audio_silent_natural .fail 2 (44/10) (by norm_num)
      (by norm_num [planTiming, effDuration])⟩

/-- **C9.** For every audio read outcome (zero, negative, `NaN`, infinite
durations included) and every `n ≥ 1`, the per-slide duration is at least
`TRANSITION + 0.2 = 0.8` s, hence strictly longer than the `0.6` s fade. -/
theorem c9_per_slide_above_transition (r : AudioRead) (n : ℕ) (hn : 1 ≤ n) :
    TRANSITION + 2/10 ≤ (planTiming r n).per_slide
      ∧ TRANSITION + 2/10 = 4/5
      ∧ TRANSITION < (planTiming r n).per_slide := by
  have hge := planTiming_per_slide_ge r n
  refine ⟨hge, by norm_num [TRANSITION], ?_⟩
  have : TRANSITION < TRANSITION + 2/10 := by norm_num
  linarith

/-- Witness for C9 at a negative finite duration, `n = 1`. -/
theorem c9_per_slide_above_transition_witness :
    ((1:ℕ) ≤ 1)
      ∧ TRANSITION + 2/10 ≤ (planTiming (.ok (some (.fin (-3)))) 1).per_slide
      ∧ TRANSITION < (planTiming (.ok (some (.fin (-3)))) 1).per_slide :=
  ⟨by norm_num,
    (c9_per_slide_above_transition (.ok (some (.fin (-3)))) 1 (by norm_num)).1,
    (c9_per_slide_above_transition (.ok (some (.fin (-3)))) 1 (by norm_num)).2.2⟩

/-- **C10.** Whenever the binder is reached with a non-`None` audio object the
mode is `"trim_to_audio"`, so the binder returns the trim result: the
`pad_audio` silence branch and the unrecognized-mode `ValueError` branch are
unreachable. -/
theorem c10_audio_present_mode_trim (r : AudioRead) (n : ℕ) (s : ℚ)
    (h : (planTiming r n).audioPresent = true) :
    (planTiming r n).mode = "trim_to_audio"
      ∧ bindAudio (planTiming r n) s
          = .ok { duration := (planTiming r n).audio_duration,
                  hasAudio := true, silenceAppended := false } := by
  have hm := planTiming_audio_imp_trim r n h
  exact ⟨hm, by simp [bindAudio, h, hm]⟩

/-- Witness for C10 at a 5-second audio file, `n = 2`. -/
theorem c10_audio_present_mode_trim_witness :
    ((planTiming (.ok (some (.fin 5))) 2).audioPresent = true)
      ∧ (planTiming (.ok (some (.fin 5))) 2).mode = "trim_to_audio"
      ∧ bindAudio (planTiming (.ok (some (.fin 5))) 2) 7
          = .ok { duration := (planTiming (.ok (some (.fin 5))) 2).audio_duration,
                  hasAudio := true, silenceAppended := false } :=
  ⟨by norm_num [planTiming, effDuration, audioOpened],
    (c10_audio_present_mode_trim (.ok (some (.fin 5))) 2 7
      (by norm_num [planTiming, effDuration, audioOpened])).1,
    (c10_audio_present_mode_trim (.ok (some (.fin 5))) 2 7
      (by norm_num [planTiming, effDuration, audioOpened])).2⟩

/-- **C6.** The image collector sorts the `*.*` glob listing case-insensitively
by lowercase basename (a stable sort, hence a permutation of the listing,
pairwise ordered by the lowercase-basename key), errors exactly when the
listing is empty, and otherwise returns the first `min(k, MAX_IMAGES)` entries
of the sorted list, `MAX_IMAGES` defaulting to `10` when the environment
variable is absent. -/
theorem c6_image_collector (listing : List String) (env : Option ℕ) :
    ((∃ e, collectImages listing (maxImagesFromEnv env) = .error e) ↔ listing = [])
      ∧ (listing ≠ [] →
          collectImages listing (maxImagesFromEnv env)
              = .ok ((sortImages listing).take (maxImagesFromEnv env))
            ∧ ((sortImages listing).take (maxImagesFromEnv env)).length
              = min listing.length (maxImagesFromEnv env))
      ∧ (sortImages listing).Perm listing
      ∧ (sortImages listing).Pairwise (fun a b => imageKey a ≤ imageKey b)
      ∧ maxImagesFromEnv none = 10 := by
  have htrans : ∀ a b c : String, imageLe a b → imageLe b c → imageLe a c := by
    intro a b c hab hbc
    simp only [imageLe, decide_eq_true_eq] at *
    exact le_trans hab hbc
  have htotal : ∀ a b : String, imageLe a b || imageLe b a := by
    intro a b
    simp only [imageLe, Bool.or_eq_true, decide_eq_true_eq]
    exact le_total _ _
  refine ⟨?_, ?_, List.mergeSort_perm listing imageLe, ?_, rfl⟩
  · constructor
    · rintro ⟨e, he⟩
      by_contra hne
      rw [collectImages_ok listing _ hne] at he
      cases he
    · rintro rfl
      exact ⟨"rasm topilmadi", by simp [collectImages, sortImages]⟩
  · intro hne
    refine ⟨collectImages_ok listing _ hne, ?_⟩
    rw [List.length_take]
    simp [sortImages, Nat.min_comm]
  · exact (List.sorted_mergeSort htrans htotal listing).imp
      (fun h => by simpa [imageLe, decide_eq_true_eq] using h)

/-- Witness for C6: a two-file listing whose case-insensitive basename order
differs from the raw order, with no `MAX_IMAGES` override. -/
theorem c6_image_collector_witness :
    (["dir/B.png", "dir/a.png"] : List String) ≠ []
      ∧ collectImages ["dir/B.png", "dir/a.png"] (maxImagesFromEnv none)
          = .ok ((sortImages ["dir/B.png", "dir/a.png"]).take (maxImagesFromEnv none))
      ∧ maxImagesFromEnv none = 10 :=
  ⟨by decide,
    ((c6_image_collector ["dir/B.png", "dir/a.png"] none).2.1 (by decide)).1,
    (c6_image_collector ["dir/B.png", "dir/a.png"] none).2.2.2.2⟩

/-- **C8.** Image normalization is never fatal: the output keeps the input's
length and order, any per-image failure falls back to that image's original
path, and an unavailable image library passes the whole list through. -/
theorem c8_downscale_never_fatal (pil : Bool) (proc : ℕ → String → Except String String)
    (paths : List String) (w h : ℤ) :
    (downscale_images pil proc paths w h).length = paths.length
      ∧ (pil = false → downscale_images pil proc paths w h = paths)
      ∧ (∀ k x msg, paths[k]? = some x → proc k x = .error msg →
          (downscale_images pil proc paths w h)[k]? = some x) := by
  unfold downscale_images
  by_cases hp : pil
  · simp only [hp, Bool.not_true, Bool.false_eq_true, if_false]
    by_cases hw : w ≤ 0 ∨ h ≤ 0
    · rw [if_pos hw]
      refine ⟨rfl, ?_, fun k x msg h1 _ => h1⟩
      intro hc
      exact Bool.noConfusion hc
    · rw [if_neg hw]
      refine ⟨by simp, ?_, ?_⟩
      · intro hc
        exact Bool.noConfusion hc
      · intro k x msg h1 h2
        simp only [List.getElem?_map, List.getElem?_enum, h1, Option.map_some]
        simp [h2]
  · have hp' : pil = false := by simpa using hp
    subst hp'
    refine ⟨by simp, fun _ => by simp, fun k x msg h1 _ => ?_⟩
    simpa using h1

/-- Witness for C8: the middle image of three fails to re-encode and its
original path is kept in place. -/
theorem c8_downscale_never_fatal_witness :
    (false = false → downscale_images false (fun _ _ => .error "e") ["x", "y"] 587 1068
        = ["x", "y"])
      ∧ ((["x", "y", "z"] : List String)[1]? = some "y"
          ∧ (fun i (_ : String) => if i = 1 then (.error "boom" : Except String String)
              else .ok "d") 1 "y" = .error "boom")
      ∧ (downscale_images true
            (fun i (_ : String) => if i = 1 then .error "boom" else .ok "d")
            ["x", "y", "z"] 587 1068)[1]? = some "y" :=
  ⟨(c8_downscale_never_fatal false (fun _ _ => .error "e") ["x", "y"] 587 1068).2.1,
    ⟨rfl, rfl⟩,
    (c8_downscale_never_fatal true
        (fun i (_ : String) => if i = 1 then .error "boom" else .ok "d")
        ["x", "y", "z"] 587 1068).2.2 1 "y" "boom" rfl rfl⟩

/-- **C7.** On any run that passes the image and audio existence checks, a
failure raised while building the caption overlay is swallowed: the render
still completes (`render_video` returns `.ok`) with no caption overlay; and
the caption stage is skipped when the path is absent or empty, the file does
not exist, or `SKIP_CAPTIONS=1` is set. -/
theorem c7_caption_failure_swallowed (i : RenderInput)
    (hne : i.listing ≠ []) (ha : i.audioExists = true) :
    ∃ out, render_video i = .ok out
      ∧ (∀ msg, i.captionBuild = .error msg → out.captionsApplied = false)
      ∧ ((i.captionsPath = none ∨ i.captionsPath = some "" ∨ i.captionsFileExists = false
            ∨ i.skipCaptionsEnv = some "1") → out.captionsApplied = false) := by
  have hc := collectImages_ok i.listing (maxImagesFromEnv i.maxImagesEnv) hne
  obtain ⟨f, hf, hs⟩ := bindAudio_planTiming_ok i.audioRead
      (downscale_images i.pil i.imgProc
        ((sortImages i.listing).take (maxImagesFromEnv i.maxImagesEnv)) inner_w inner_h).length
      (concatDuration
        (planTiming i.audioRead
          (downscale_images i.pil i.imgProc
            ((sortImages i.listing).take (maxImagesFromEnv i.maxImagesEnv))
            inner_w inner_h).length).durations
        (-TRANSITION))
  refine
    ⟨{ images := downscale_images i.pil i.imgProc
          ((sortImages i.listing).take (maxImagesFromEnv i.maxImagesEnv)) inner_w inner_h,
       per_slide := (planTiming i.audioRead
          (downscale_images i.pil i.imgProc
            ((sortImages i.listing).take (maxImagesFromEnv i.maxImagesEnv))
            inner_w inner_h).length).per_slide,
       mode := (planTiming i.audioRead
          (downscale_images i.pil i.imgProc
            ((sortImages i.listing).take (maxImagesFromEnv i.maxImagesEnv))
            inner_w inner_h).length).mode,
       slideshowDuration := concatDuration
          (planTiming i.audioRead
            (downscale_images i.pil i.imgProc
              ((sortImages i.listing).take (maxImagesFromEnv i.maxImagesEnv))
              inner_w inner_h).length).durations
          (-TRANSITION),
       finalDuration := f.duration, hasAudio := f.hasAudio,
       silenceAppended := f.silenceAppended,
       captionsApplied := captionStage
          { captionsPath := i.captionsPath, fileExists := i.captionsFileExists,
            skipEnv := i.skipCaptionsEnv, build := i.captionBuild } }, ?_, ?_, ?_⟩
  · unfold render_video
    rw [hc, ha]
    simp only [Bool.not_true, Bool.false_eq_true, if_false]
    rw [hf]
  · intro msg hmsg
    exact captionStage_error _ msg hmsg
  · intro h
    refine captionStage_skip _ ?_
    rcases h with h | h | h | h
    · exact Or.inl h
    · exact Or.inr (Or.inl h)
    · exact Or.inr (Or.inr (Or.inl h))
    · exact Or.inr (Or.inr (Or.inr h))

/-- Witness for C7: two images, 9-second audio, caption body raising; the
render still returns `.ok` and no overlay is applied. -/
theorem c7_caption_failure_swallowed_witness :
    ((["d/b.png", "d/a.png"] : List String) ≠ [])
      ∧ ∃ out,
          render_video
            { listing := ["d/b.png", "d/a.png"], maxImagesEnv := none, audioExists := true,
              pil := true, imgProc := fun k _ => .ok (toString k),
              audioRead := .ok (some (.fin 9)), captionsPath := some "c.srt",
              captionsFileExists := true, skipCaptionsEnv := none,
              captionBuild := .error "parse failed" } = .ok out
            ∧ out.captionsApplied = false := by
  refine ⟨by decide, ?_⟩
  obtain ⟨out, h1, h2, h3⟩ := c7_caption_failure_swallowed
    { listing := ["d/b.png", "d/a.png"], maxImagesEnv := none, audioExists := true,
      pil := true, imgProc := fun k _ => .ok (toString k),
      audioRead := .ok (some (.fin 9)), captionsPath := some "c.srt",
      captionsFileExists := true, skipCaptionsEnv := none,
      captionBuild := .error "parse failed" } (by decide) rfl
  exact ⟨out, h1, h2 "parse failed" rfl⟩

end VideoBackend
